import Mathlib

/-!
Shallow embedding of the role-hierarchy authorization core of the
tcss460-auth-api repository, together with theorems settling the spec
claims about it.

The embedded code lives in:
- `src/core/middleware/adminAuth.ts` (the gate middlewares and the
  `canModifyUser` capability helper),
- `src/core/middleware/validation.ts` (`validateAdminRoleChange`),
- `src/controllers/adminController.ts` (`AdminController.updateUser`).

JavaScript numbers that come out of `parseInt` are modelled as
`Option Int` (`none` is `NaN`); the persistence lookup
`SELECT Account_Role FROM Account WHERE Account_ID = $1` is modelled as a
function `Int → Option Int` (`none` means zero rows).
-/

namespace AuthApi

/-- HTTP method of the incoming request; `checkRoleHierarchy` only ever
tests `request.method === 'DELETE'`, and is mounted on PUT and DELETE
routes. -/
inductive Method where
  | PUT
  | DELETE
deriving DecidableEq, Repr

/-- The members of `ErrorCodes` (from `@utilities`) that the embedded
middlewares pass to `sendError`. -/
inductive ErrorCode where
  | AUTH_UNAUTHORIZED
  | VALD_MISSING_FIELDS
  | VALD_INVALID_ROLE
  | USER_NOT_FOUND
  | SRVR_DATABASE_ERROR
deriving DecidableEq, Repr

/-- One `sendError(response, status, message, code)` call: the HTTP status,
the message string and the error code, exactly as they appear in the
source. -/
structure ErrorResponse where
  status : Nat
  message : String
  code : ErrorCode
deriving DecidableEq, Repr

/-- Outcome of running one gate middleware: either `sendError` was called
with some `ErrorResponse` and the chain stopped, or `next()` was called
(carrying `request.targetUserRole` when the middleware stored it). -/
inductive GateResult where
  | error (e : ErrorResponse)
  | next (targetUserRole : Option Int)
deriving DecidableEq, Repr

/-- The call `sendError(response, 400, 'Invalid user ID', ErrorCodes.VALD_MISSING_FIELDS)`
in `checkRoleHierarchy`. -/
def invalidUserIdError : ErrorResponse :=
  ⟨400, "Invalid user ID", ErrorCode.VALD_MISSING_FIELDS⟩

/-- The call `sendError(response, 400, 'Cannot delete your own account', ErrorCodes.AUTH_UNAUTHORIZED)`:
the self-delete denial in `checkRoleHierarchy`. -/
def selfDeleteError : ErrorResponse :=
  ⟨400, "Cannot delete your own account", ErrorCode.AUTH_UNAUTHORIZED⟩

/-- The call `sendError(response, 404, 'User not found', ErrorCodes.USER_NOT_FOUND)`:
the empty-lookup outcome in both hierarchy middlewares. -/
def userNotFoundError : ErrorResponse :=
  ⟨404, "User not found", ErrorCode.USER_NOT_FOUND⟩

/-- The hierarchy denial in `checkRoleHierarchy`; the message interpolates
`action`, which is `'delete'` for DELETE requests and `'modify'` otherwise. -/
def hierarchyError (m : Method) : ErrorResponse :=
  ⟨403,
    "Cannot " ++ (if m = Method.DELETE then "delete" else "modify")
      ++ " user with equal or higher role",
    ErrorCode.AUTH_UNAUTHORIZED⟩

/-- Embedding of `checkRoleHierarchy` (adminAuth.ts, lines 113-167), the
gate for UPDATE (PUT) and DELETE on another principal.  `targetUserId?` is
`parseInt(request.params.id)` (`none` = NaN); `adminRole`/`adminId` come
from the JWT claims; `store` is the Account_Role lookup. -/
def checkRoleHierarchy (m : Method) (targetUserId? : Option Int)
    (adminRole adminId : Int) (store : Int → Option Int) : GateResult :=
  match targetUserId? with
  | none => GateResult.error invalidUserIdError
  | some targetUserId =>
    if m = Method.DELETE ∧ targetUserId = adminId then
      GateResult.error selfDeleteError
    else
      match store targetUserId with
      | none => GateResult.error userNotFoundError
      | some targetRole =>
        if adminRole ≤ targetRole then
          GateResult.error (hierarchyError m)
        else
          GateResult.next (some targetRole)

/-- The call `sendError(response, 400, 'Invalid role. Must be between 1-5', ErrorCodes.VALD_INVALID_ROLE)`
in `validateRoleCreation`. -/
def invalidRoleError : ErrorResponse :=
  ⟨400, "Invalid role. Must be between 1-5", ErrorCode.VALD_INVALID_ROLE⟩

/-- The call `sendError(response, 403, 'Cannot create user with higher role than your own', ErrorCodes.AUTH_UNAUTHORIZED)`
in `validateRoleCreation`. -/
def roleTooHighError : ErrorResponse :=
  ⟨403, "Cannot create user with higher role than your own",
    ErrorCode.AUTH_UNAUTHORIZED⟩

/-- Embedding of `validateRoleCreation` (adminAuth.ts, lines 173-198):
the CREATE-side policy.  `newUserRole?` is `parseInt(request.body.role)`
(`none` = NaN). -/
def validateRoleCreation (adminRole : Int) (newUserRole? : Option Int) :
    GateResult :=
  match newUserRole? with
  | none => GateResult.error invalidRoleError
  | some newUserRole =>
    if newUserRole < 1 ∨ newUserRole > 5 then
      GateResult.error invalidRoleError
    else if newUserRole > adminRole then
      GateResult.error roleTooHighError
    else
      GateResult.next none

/-- The call `sendError(response, 400, 'Invalid user ID or role', ErrorCodes.VALD_MISSING_FIELDS)`
in `checkRoleChangeHierarchy`. -/
def invalidIdOrRoleError : ErrorResponse :=
  ⟨400, "Invalid user ID or role", ErrorCode.VALD_MISSING_FIELDS⟩

/-- The call `sendError(response, 400, 'Cannot change your own role', ErrorCodes.AUTH_UNAUTHORIZED)`:
the self-role-change denial in `checkRoleChangeHierarchy`. -/
def selfRoleChangeError : ErrorResponse :=
  ⟨400, "Cannot change your own role", ErrorCode.AUTH_UNAUTHORIZED⟩

/-- The call `sendError(response, 403, 'Cannot promote user to higher role than your own', ErrorCodes.AUTH_UNAUTHORIZED)`
in `checkRoleChangeHierarchy` (the promotion ceiling). -/
def promotionCeilingError : ErrorResponse :=
  ⟨403, "Cannot promote user to higher role than your own",
    ErrorCode.AUTH_UNAUTHORIZED⟩

/-- The call `sendError(response, 403, 'Cannot change role of user with equal or higher role', ErrorCodes.AUTH_UNAUTHORIZED)`
in `checkRoleChangeHierarchy` (insufficient hierarchy). -/
def roleChangeHierarchyError : ErrorResponse :=
  ⟨403, "Cannot change role of user with equal or higher role",
    ErrorCode.AUTH_UNAUTHORIZED⟩

/-- The call `sendError(response, 403, 'Admins can only assign roles up to admin level', ErrorCodes.AUTH_UNAUTHORIZED)`
in `checkRoleChangeHierarchy` (the tier ceiling for role 3). -/
def tierCeilingError : ErrorResponse :=
  ⟨403, "Admins can only assign roles up to admin level",
    ErrorCode.AUTH_UNAUTHORIZED⟩

/-- Embedding of `checkRoleChangeHierarchy` (adminAuth.ts, lines 244-319),
the gate for CHANGE_ROLE.  `targetUserId?` is `parseInt(request.params.id)`
and `newRole?` is `parseInt(request.body.role)` (`none` = NaN); the source
checks `isNaN(targetUserId) || isNaN(newRole)` first, then self-target,
then the promotion ceiling, then performs the lookup, then the hierarchy
rule, then the tier ceiling. -/
def checkRoleChangeHierarchy (targetUserId? newRole? : Option Int)
    (adminRole adminId : Int) (store : Int → Option Int) : GateResult :=
  match targetUserId?, newRole? with
  | some targetUserId, some newRole =>
    if targetUserId = adminId then
      GateResult.error selfRoleChangeError
    else if newRole > adminRole then
      GateResult.error promotionCeilingError
    else
      match store targetUserId with
      | none => GateResult.error userNotFoundError
      | some currentTargetRole =>
        if currentTargetRole ≥ adminRole then
          GateResult.error roleChangeHierarchyError
        else if adminRole = 3 ∧ newRole > 3 then
          GateResult.error tierCeilingError
        else
          GateResult.next none
  | _, _ => GateResult.error invalidIdOrRoleError

/-- Modelled from the spec: the `UserRole` enum lives in `@models`, which
is not part of the provided sources; the spec fixes tier 5 as the maximum
tier "Owner" (spec section 3 and glossary). -/
def ownerRole : Int := 5

/-- Embedding of `canModifyUser` (adminAuth.ts, lines 325-336): the
standalone capability predicate.  `UserRole.OWNER` is `ownerRole` (= 5). -/
def canModifyUser (modifierRole targetRole : Int) : Bool :=
  if modifierRole = ownerRole then
    true
  else
    decide (modifierRole > targetRole)

/-- An `Account` row, with the columns `AdminController.updateUser` reads
or writes; the remaining columns are the frame the claim is about. -/
structure Account where
  account_id : Int
  firstname : String
  lastname : String
  username : String
  email : String
  phone : String
  password_hash : String
  account_role : Int
  account_status : String
  email_verified : Bool
  phone_verified : Bool
  created_at : Nat
  updated_at : Nat
deriving DecidableEq, Repr

/-- The fields `AdminController.updateUser` destructures from
`request.body`; `none` is an absent (`undefined`) field. -/
structure UpdateBody where
  accountStatus : Option String
  emailVerified : Option Bool
  phoneVerified : Option Bool
deriving DecidableEq, Repr

/-- The call `sendError(response, 400, 'No valid updates provided', ErrorCodes.VALD_MISSING_FIELDS)`
in `AdminController.updateUser`. -/
def noValidUpdatesError : ErrorResponse :=
  ⟨400, "No valid updates provided", ErrorCode.VALD_MISSING_FIELDS⟩

/-- Embedding of `AdminController.updateUser` (adminController.ts,
lines 413-459) restricted to its effect on the target row: the SET list is
built from the fields present in the body, plus `Updated_At = NOW()`; when
the list is empty the controller errors out before issuing any query.
`now` is the value of `NOW()`. -/
def updateUser (body : UpdateBody) (now : Nat) (acct : Account) :
    Except ErrorResponse Account :=
  if body.accountStatus = none ∧ body.emailVerified = none ∧
      body.phoneVerified = none then
    Except.error noValidUpdatesError
  else
    Except.ok
      { acct with
        account_status := body.accountStatus.getD acct.account_status
        email_verified := body.emailVerified.getD acct.email_verified
        phone_verified := body.phoneVerified.getD acct.phone_verified
        updated_at := now }

/-! ## Theorems settling the claims -/

/-- C1: for roles in [1,5] and a target that is another principal
(acting id ≠ target id), the UPDATE/DELETE hierarchy gate allows iff the
acting role is strictly greater than the target role, and for equal roles
it denies with the insufficient-hierarchy error whatever the method; in
particular Owner (5) on a role-5 target is denied. -/
theorem claim1_canModifyOrDelete_hierarchy
    (m : Method) (ar tr aid tid : Int) (store : Int → Option Int)
    (hid : aid ≠ tid) (hstore : store tid = some tr)
    (_har1 : 1 ≤ ar) (_har5 : ar ≤ 5) (_htr1 : 1 ≤ tr) (_htr5 : tr ≤ 5) :
    (ar ≠ tr →
      (checkRoleHierarchy m (some tid) ar aid store = GateResult.next (some tr)
        ↔ ar > tr))
    ∧ (ar = tr →
      checkRoleHierarchy m (some tid) ar aid store
        = GateResult.error (hierarchyError m)) := by
  have hne : ¬(m = Method.DELETE ∧ tid = aid) := fun h => hid h.2.symm
  simp only [checkRoleHierarchy, if_neg hne, hstore]
  by_cases hle : ar ≤ tr
  · simp only [if_pos hle]
    constructor
    · intro hne2
      constructor
      · intro h
        simp at h
      · intro hgt
        exfalso
        omega
    · intro heq
      trivial
  · simp only [if_neg hle]
    constructor
    · intro hne2
      constructor
      · intro h
        omega
      · intro hgt
        trivial
    · intro heq
      exfalso
      omega

/-- Witness for C1 at the Owner-vs-Owner instance: acting role 5, id 1;
target id 2 whose stored role is 5; a PUT request is denied with the
hierarchy error. -/
theorem claim1_canModifyOrDelete_hierarchy_witness :
    checkRoleHierarchy Method.PUT (some 2) 5 1
        (fun i => if i = 2 then some 5 else none)
      = GateResult.error (hierarchyError Method.PUT) :=
  (claim1_canModifyOrDelete_hierarchy Method.PUT 5 5 1 2
      (fun i => if i = 2 then some 5 else none)
      (by decide) (by decide) (by decide) (by decide) (by decide)
      (by decide)).2 rfl

/-- C4: a DELETE request whose target id equals the acting id is denied
with the self-delete error for every acting role and every store (hence
every target role), before the lookup and before the hierarchy rule. -/
theorem claim4_self_delete_blocked (ar tid : Int)
    (store : Int → Option Int) :
    checkRoleHierarchy Method.DELETE (some tid) ar tid store
      = GateResult.error selfDeleteError := by
  simp [checkRoleHierarchy]

/-- C5: `canModifyUser` is true iff the modifier is the Owner tier (5) or
strictly above the target; `canModifyUser 5 5 = true`, while the
`checkRoleHierarchy` gate denies acting role 5 against a stored target
role 5 — the two modify predicates diverge at Owner-vs-Owner. -/
theorem claim5_capability_divergence
    (aid tid : Int) (store : Int → Option Int)
    (_hid : aid ≠ tid) (hstore : store tid = some 5) :
    (∀ mr t : Int, canModifyUser mr t = true ↔ (mr = 5 ∨ mr > t))
    ∧ canModifyUser 5 5 = true
    ∧ checkRoleHierarchy Method.PUT (some tid) 5 aid store
        = GateResult.error (hierarchyError Method.PUT) := by
  refine ⟨fun mr t => ?_, by decide, ?_⟩
  · simp only [canModifyUser, ownerRole]
    by_cases h5 : mr = 5
    · simp [h5]
    · simp [h5]
  · have hne : ¬(Method.PUT = Method.DELETE ∧ tid = aid) := fun h => by
      cases h.1
    simp only [checkRoleHierarchy, if_neg hne, hstore]
    norm_num

/-- Witness for C5 with acting id 1 and target id 2 stored at role 5. -/
theorem claim5_capability_divergence_witness :
    canModifyUser 5 5 = true
    ∧ checkRoleHierarchy Method.PUT (some 2) 5 1
        (fun i => if i = 2 then some 5 else none)
      = GateResult.error (hierarchyError Method.PUT) :=
  ⟨(claim5_capability_divergence 1 2
      (fun i => if i = 2 then some 5 else none) (by decide) (by decide)).2.1,
    (claim5_capability_divergence 1 2
      (fun i => if i = 2 then some 5 else none) (by decide) (by decide)).2.2⟩

/-- C2: for a target that is another principal whose stored role is
`tr`, with the requested new role `nr` and `tr` in [1,5], the role-change
gate allows iff `nr ≤ ar`, `tr < ar` and not (`ar = 3` and `nr > 3`);
when `nr > ar` it denies with the promotion-ceiling error, and when
`nr ≤ ar` but `tr ≥ ar` it denies with the insufficient-hierarchy error
(the first failing rule in evaluation order). -/
theorem claim2_canChangeRole
    (ar aid tid tr nr : Int) (store : Int → Option Int)
    (hid : aid ≠ tid) (hstore : store tid = some tr)
    (_hnr1 : 1 ≤ nr) (_hnr5 : nr ≤ 5) (_htr1 : 1 ≤ tr) (_htr5 : tr ≤ 5) :
    (checkRoleChangeHierarchy (some tid) (some nr) ar aid store
        = GateResult.next none
      ↔ (nr ≤ ar ∧ tr < ar ∧ ¬(ar = 3 ∧ nr > 3)))
    ∧ (nr > ar →
        checkRoleChangeHierarchy (some tid) (some nr) ar aid store
          = GateResult.error promotionCeilingError)
    ∧ (nr ≤ ar → tr ≥ ar →
        checkRoleChangeHierarchy (some tid) (some nr) ar aid store
          = GateResult.error roleChangeHierarchyError) := by
  have hne : tid ≠ aid := fun h => hid h.symm
  simp only [checkRoleChangeHierarchy, if_neg hne, hstore]
  by_cases hpc : nr > ar
  · simp only [if_pos hpc]
    refine ⟨?_, fun _ => True.intro, fun hle _ => absurd hpc (by omega)⟩
    constructor
    · intro h
      simp at h
    · intro h
      exfalso
      omega
  · simp only [if_neg hpc]
    by_cases hih : tr ≥ ar
    · simp only [if_pos hih]
      refine ⟨?_, fun h => absurd h hpc, fun _ _ => True.intro⟩
      constructor
      · intro h
        simp at h
      · intro h
        exfalso
        omega
    · simp only [if_neg hih]
      by_cases htc : ar = 3 ∧ nr > 3
      · exfalso
        omega
      · simp only [if_neg htc]
        refine ⟨?_, fun h => absurd h hpc, fun _ h => absurd h hih⟩
        constructor
        · intro _
          exact ⟨by omega, by omega, htc⟩
        · intro _
          trivial

/-- Witness for C2 at the claim's ALLOW instance: acting role 4 (id 1),
target id 2 stored at role 2, requested new role 3 — allowed. -/
theorem claim2_canChangeRole_witness :
    checkRoleChangeHierarchy (some 2) (some 3) 4 1
        (fun i => if i = 2 then some 2 else none)
      = GateResult.next none :=
  ((claim2_canChangeRole 4 1 2 2 3
      (fun i => if i = 2 then some 2 else none)
      (by decide) (by decide) (by decide) (by decide) (by decide)
      (by decide)).1).mpr ⟨by decide, by decide, by decide⟩

/-- C3: for acting roles in [1,5], `validateRoleCreation` allows a parsed
requested role in [1,5] iff it is at most the acting role, denying with
the role-too-high error otherwise; a requested role outside [1,5] (or an
unparseable one) is denied with the invalid-role error for every acting
role. -/
theorem claim3_validateRoleCreation (ar rr : Int)
    (_har1 : 1 ≤ ar) (_har5 : ar ≤ 5) :
    (1 ≤ rr → rr ≤ 5 →
      ((validateRoleCreation ar (some rr) = GateResult.next none ↔ rr ≤ ar)
       ∧ (rr > ar →
          validateRoleCreation ar (some rr)
            = GateResult.error roleTooHighError)))
    ∧ (rr < 1 ∨ rr > 5 →
        validateRoleCreation ar (some rr) = GateResult.error invalidRoleError)
    ∧ validateRoleCreation ar none = GateResult.error invalidRoleError := by
  refine ⟨fun h1 h5 => ?_, fun hout => ?_, rfl⟩
  · have hin : ¬(rr < 1 ∨ rr > 5) := by omega
    simp only [validateRoleCreation, if_neg hin]
    by_cases hho : rr > ar
    · simp only [if_pos hho]
      refine ⟨?_, fun _ => True.intro⟩
      constructor
      · intro h
        simp at h
      · intro h
        exfalso
        omega
    · simp only [if_neg hho]
      refine ⟨?_, fun h => absurd h hho⟩
      constructor
      · intro _
        omega
      · intro _
        trivial
  · simp only [validateRoleCreation, if_pos hout]

/-- Witness for C3 at acting role 3, requested role 2 (allowed). -/
theorem claim3_validateRoleCreation_witness :
    validateRoleCreation 3 (some 2) = GateResult.next none :=
  (((claim3_validateRoleCreation 3 2 (by decide) (by decide)).1
    (by decide) (by decide)).1).mpr (by decide)

/-- C6 counterexample: with acting id 1 targeting id 1 (self) and a
malformed requested role (`parseInt` returned NaN), the role-change gate
returns the missing-fields validation error, not the self-action denial:
the `isNaN` check on the body role fires before the self-target rule. -/
theorem claim6_counterexample :
    checkRoleChangeHierarchy (some 1) none 3 1 (fun _ => some 2)
      = GateResult.error invalidIdOrRoleError
    ∧ invalidIdOrRoleError ≠ selfRoleChangeError := by
  exact ⟨rfl, by decide⟩

/-- C6 amended: when the requested role parses to an integer (any
integer, in range or not), a self-targeted role change is denied with the
self-action error regardless of the roles involved; when the requested
role is malformed (NaN), the missing-fields check fires first instead. -/
theorem claim6_self_action_order (aid ar nr : Int)
    (store : Int → Option Int) :
    checkRoleChangeHierarchy (some aid) (some nr) ar aid store
      = GateResult.error selfRoleChangeError
    ∧ checkRoleChangeHierarchy (some aid) none ar aid store
      = GateResult.error invalidIdOrRoleError := by
  constructor
  · simp [checkRoleChangeHierarchy]
  · rfl

/-- C7: `checkRoleChangeHierarchy` with acting role 3 and requested role
4 against another principal denies with the promotion-ceiling error (8
before any lookup — the store is unconstrained); moreover for acting role
3 the tier-ceiling error is never the returned outcome, on any input. -/
theorem claim7_promotion_before_tier
    (a t : Int) (store : Int → Option Int) (hat : t ≠ a) :
    checkRoleChangeHierarchy (some t) (some 4) 3 a store
      = GateResult.error promotionCeilingError
    ∧ (∀ tid? nr? : Option Int, ∀ aid : Int, ∀ st : Int → Option Int,
        checkRoleChangeHierarchy tid? nr? 3 aid st
          ≠ GateResult.error tierCeilingError) := by
  constructor
  · simp only [checkRoleChangeHierarchy, if_neg hat]
    norm_num
  · intro tid? nr? aid st h
    match tid?, nr? with
    | none, nr? =>
      exact absurd (show GateResult.error invalidIdOrRoleError
          = GateResult.error tierCeilingError from h) (by decide)
    | some tid, none =>
      exact absurd (show GateResult.error invalidIdOrRoleError
          = GateResult.error tierCeilingError from h) (by decide)
    | some tid, some nr =>
      simp only [checkRoleChangeHierarchy] at h
      by_cases hself : tid = aid
      · simp only [if_pos hself] at h
        exact absurd h (by decide)
      · simp only [if_neg hself] at h
        by_cases hpc : nr > 3
        · simp only [if_pos hpc] at h
          exact absurd h (by decide)
        · simp only [if_neg hpc] at h
          match hst : st tid with
          | none =>
            try simp only [hst] at h
            exact absurd h (by decide)
          | some ctr =>
            try simp only [hst] at h
            by_cases hih : ctr ≥ 3
            · simp only [if_pos hih] at h
              exact absurd h (by decide)
            · simp only [if_neg hih] at h
              have htc2 : ¬(True ∧ nr > 3) := fun hc => hpc hc.2
              simp only [if_neg htc2] at h
              exact absurd h (by decide)

/-- Witness for C7 with acting id 1 and target id 2. -/
theorem claim7_promotion_before_tier_witness :
    checkRoleChangeHierarchy (some 2) (some 4) 3 1 (fun _ => none)
      = GateResult.error promotionCeilingError :=
  (claim7_promotion_before_tier 1 2 (fun _ => none) (by decide)).1

/-- C8 counterexample: a self-delete (acting id 1 at role 5, target id 1)
is denied, but with HTTP status 400, not 403 as the claim states. -/
theorem claim8_counterexample :
    checkRoleHierarchy Method.DELETE (some 1) 5 1 (fun _ => some 1)
      = GateResult.error selfDeleteError
    ∧ selfDeleteError.status = 400
    ∧ selfDeleteError.status ≠ 403 := by
  exact ⟨rfl, rfl, by decide⟩

/-- C8 amended: hierarchy, promotion-ceiling, tier-ceiling and
role-too-high denials are surfaced with HTTP status 403, each with its own
distinct message; the SELF_ACTION denials (self-delete and self-role-change)
are instead surfaced with HTTP status 400, and they remain the outcome of
those requests for every role and store. -/
theorem claim8_deny_status_mapping :
    (hierarchyError Method.PUT).status = 403
    ∧ (hierarchyError Method.DELETE).status = 403
    ∧ promotionCeilingError.status = 403
    ∧ roleChangeHierarchyError.status = 403
    ∧ tierCeilingError.status = 403
    ∧ roleTooHighError.status = 403
    ∧ selfDeleteError.status = 400
    ∧ selfRoleChangeError.status = 400
    ∧ selfDeleteError.message ≠ selfRoleChangeError.message
    ∧ (hierarchyError Method.PUT).message
        ≠ (hierarchyError Method.DELETE).message
    ∧ promotionCeilingError.message ≠ roleChangeHierarchyError.message
    ∧ (∀ ar tid : Int, ∀ store : Int → Option Int,
        checkRoleHierarchy Method.DELETE (some tid) ar tid store
          = GateResult.error selfDeleteError)
    ∧ (∀ ar aid nr : Int, ∀ store : Int → Option Int,
        checkRoleChangeHierarchy (some aid) (some nr) ar aid store
          = GateResult.error selfRoleChangeError) := by
  refine ⟨rfl, rfl, rfl, rfl, rfl, rfl, rfl, rfl, by decide, by decide,
    by decide, fun ar tid store => ?_, fun ar aid nr store => ?_⟩
  · simp [checkRoleHierarchy]
  · simp [checkRoleChangeHierarchy]

/-- C9 counterexample: a role-change request (acting id 1, role 3) for a
well-formed target id 2 that does not exist in the store, requesting role
4, is denied with the promotion-ceiling error, not the not-found error:
the promotion-ceiling rule runs before the lookup. -/
theorem claim9_counterexample :
    checkRoleChangeHierarchy (some 2) (some 4) 3 1 (fun _ => none)
      = GateResult.error promotionCeilingError
    ∧ promotionCeilingError ≠ userNotFoundError := by
  exact ⟨rfl, by decide⟩

/-- C9 amended: when the target id does not exist in the store, the
UPDATE/DELETE gate fails with the not-found error for all acting roles
provided the request is not a self-delete; the role-change gate fails
with the not-found error for all acting roles provided additionally the
target is another principal and the requested new role does not exceed
the acting role (the self and promotion-ceiling rules run before the
lookup). -/
theorem claim9_not_found_conditions
    (m : Method) (ar aid tid nr : Int) (store : Int → Option Int)
    (hstore : store tid = none) :
    (¬(m = Method.DELETE ∧ tid = aid) →
      checkRoleHierarchy m (some tid) ar aid store
        = GateResult.error userNotFoundError)
    ∧ (tid ≠ aid → nr ≤ ar →
      checkRoleChangeHierarchy (some tid) (some nr) ar aid store
        = GateResult.error userNotFoundError) := by
  constructor
  · intro hns
    simp only [checkRoleHierarchy, if_neg hns, hstore]
  · intro hself hpc
    have hpc2 : ¬nr > ar := by omega
    simp only [checkRoleChangeHierarchy, if_neg hself, if_neg hpc2, hstore]

/-- Witness for C9 amended: target id 2 absent from the store; a PUT by
acting id 1 at role 3 gets the not-found error, and so does a role-change
to role 2. -/
theorem claim9_not_found_conditions_witness :
    checkRoleHierarchy Method.PUT (some 2) 3 1 (fun _ => none)
      = GateResult.error userNotFoundError
    ∧ checkRoleChangeHierarchy (some 2) (some 2) 3 1 (fun _ => none)
      = GateResult.error userNotFoundError :=
  ⟨(claim9_not_found_conditions Method.PUT 3 1 2 2 (fun _ => none) rfl).1
      (by decide),
    (claim9_not_found_conditions Method.PUT 3 1 2 2 (fun _ => none) rfl).2
      (by decide) (by decide)⟩

/-- C10: `updateUser` with a body containing none of the three recognized
fields fails with the no-valid-updates error (before issuing any query);
when it succeeds, the returned row differs from the input row only in
`account_status`, `email_verified`, `phone_verified` (each taken from the
body when present) and `updated_at` — id, names, username, email, phone,
password hash, role and creation time are unchanged. -/
theorem claim10_updateUser_frame (body : UpdateBody) (now : Nat)
    (acct : Account) :
    (body.accountStatus = none ∧ body.emailVerified = none ∧
        body.phoneVerified = none →
      updateUser body now acct = Except.error noValidUpdatesError)
    ∧ (∀ acct', updateUser body now acct = Except.ok acct' →
        acct'.account_id = acct.account_id
        ∧ acct'.firstname = acct.firstname
        ∧ acct'.lastname = acct.lastname
        ∧ acct'.username = acct.username
        ∧ acct'.email = acct.email
        ∧ acct'.phone = acct.phone
        ∧ acct'.password_hash = acct.password_hash
        ∧ acct'.account_role = acct.account_role
        ∧ acct'.created_at = acct.created_at
        ∧ acct'.updated_at = now
        ∧ acct'.account_status = body.accountStatus.getD acct.account_status
        ∧ acct'.email_verified = body.emailVerified.getD acct.email_verified
        ∧ acct'.phone_verified
            = body.phoneVerified.getD acct.phone_verified) := by
  constructor
  · intro hnone
    simp only [updateUser, if_pos hnone]
  · intro acct' h
    by_cases hnone : body.accountStatus = none ∧ body.emailVerified = none ∧
        body.phoneVerified = none
    · simp only [updateUser, if_pos hnone] at h
      cases h
    · simp only [updateUser, if_neg hnone] at h
      cases h
      refine ⟨rfl, rfl, rfl, rfl, rfl, rfl, rfl, rfl, rfl, rfl, rfl, rfl,
        rfl⟩

/-- Witness for C10: updating a sample account with only
`accountStatus = "suspended"` present keeps every frame field and stamps
the new status and timestamp. -/
theorem claim10_updateUser_frame_witness :
    (updateUser ⟨none, none, none⟩ 7
        ⟨9, "Ada", "Lovelace", "ada", "ada at example.com", "5551234567",
          "hash", 2, "active", true, false, 1, 1⟩
      = Except.error noValidUpdatesError)
    ∧ ((⟨9, "Ada", "Lovelace", "ada", "ada at example.com", "5551234567",
          "hash", 2, "suspended", true, false, 1, 7⟩ : Account).account_role
        = (⟨9, "Ada", "Lovelace", "ada", "ada at example.com", "5551234567",
            "hash", 2, "active", true, false, 1, 1⟩ : Account).account_role) :=
  ⟨(claim10_updateUser_frame ⟨none, none, none⟩ 7
      ⟨9, "Ada", "Lovelace", "ada", "ada at example.com", "5551234567",
        "hash", 2, "active", true, false, 1, 1⟩).1 ⟨rfl, rfl, rfl⟩,
    ((claim10_updateUser_frame ⟨some "suspended", none, none⟩ 7
      ⟨9, "Ada", "Lovelace", "ada", "ada at example.com", "5551234567",
        "hash", 2, "active", true, false, 1, 1⟩).2
      ⟨9, "Ada", "Lovelace", "ada", "ada at example.com", "5551234567",
        "hash", 2, "suspended", true, false, 1, 7⟩ rfl).2.2.2.2.2.2.2.1⟩

end AuthApi
